import Mathlib

/-
Verification of the windows-fonts bindings (src/lib.rs, src/errors.rs).

The native DirectWrite layer is modelled as oracles: each COM interface the
code calls becomes a structure of fallible query functions, and the wrapper
code from lib.rs is translated on top of them.  f32 values are modelled as
rationals, with the Rust `as i32` cast translated explicitly.  The sequence of
native matching calls performed is recorded as a trace so that claims about
which matching path is taken, and about failures happening before any native
call, are statable.
-/

namespace WindowsFonts

/-- Kinds of Python exceptions the bindings raise (the pyo3 exception classes
imported in lib.rs and errors.rs). -/
inductive PyErrKind
  | osError
  | runtimeError
  | keyError
  | indexError
  | valueError
  | typeError
deriving DecidableEq

/-- A caller-visible error: the Python exception kind plus its message. -/
structure PErr where
  kind : PyErrKind
  msg : String
deriving DecidableEq

/-- An error of the native layer (a windows..core..Error), carrying its
description string. -/
structure NativeError where
  msg : String
deriving DecidableEq

/-- Translation of the WindowsFontError enum of src/errors.rs. -/
inductive WindowsFontError
  | windowsErr (e : NativeError)
  | windows10Needed (msg : String)
  | keyNotFound (msg : String)
deriving DecidableEq

/-- Translation of the From impl for PyErr in src/errors.rs lines 18-26:
WindowsErr becomes PyOSError, Windows10Needed becomes PyRuntimeError,
KeyNotFound becomes PyKeyError. -/
def WindowsFontError.toPyErr : WindowsFontError → PErr
  | .windowsErr e => ⟨.osError, e.msg⟩
  | .windows10Needed m => ⟨.runtimeError, m⟩
  | .keyNotFound m => ⟨.keyError, m⟩

/-- The caller-visible error of a propagated native failure, routed through
WindowsFontError as in errors.rs. -/
def nativePy (e : NativeError) : PErr := (WindowsFontError.windowsErr e).toPyErr

/-- Oracle model of an IDWriteLocalizedStrings table.  FindLocaleName returns
the index of a locale when found (none models found = FALSE); GetStringLength
and GetString are the two fallible string-fetch calls. -/
structure IDWriteLocalizedStrings where
  findLocaleName : String → Except NativeError (Option Nat)
  getStringLength : Nat → Except NativeError Nat
  getString : Nat → Except NativeError String

/-- Index selection of get_best_name (lib.rs lines 222-237): try the cached
user locale; only when that call succeeded without finding it, try the fixed
fallback locale en-us; when still not found (or a find call failed), use 0. -/
def IDWriteLocalizedStrings.selectedIndex (s : IDWriteLocalizedStrings)
    (userLocale : String) : Nat :=
  match s.findLocaleName userLocale with
  | .ok (some i) => i
  | .ok none =>
    match s.findLocaleName "en-us" with
    | .ok (some j) => j
    | _ => 0
  | .error _ => 0

/-- Fetch phase of get_best_name (lib.rs lines 239-245): GetStringLength sizes
the buffer (its failure propagates), then GetString produces the string. -/
def IDWriteLocalizedStrings.fetchAt (s : IDWriteLocalizedStrings) (i : Nat) :
    Except NativeError String :=
  match s.getStringLength i with
  | .error e => .error e
  | .ok _len =>
    match s.getString i with
    | .error e => .error e
    | .ok str => .ok str

/-- Translation of BestLocaleName..get_best_name for IDWriteLocalizedStrings
(lib.rs lines 218-247): select the index by locale fallback, then fetch. -/
def IDWriteLocalizedStrings.get_best_name (s : IDWriteLocalizedStrings)
    (userLocale : String) : Except NativeError String :=
  s.fetchAt (s.selectedIndex userLocale)

/-- One concrete font face (an IDWriteFont): its native weight and style codes
(GetWeight().0 and GetStyle().0), its face-name table, and the outcome of the
_get_files native pipeline that resolves its backing file paths. -/
structure Font where
  weight : Int
  style : Int
  getFiles : Except PErr (List String)

/-- Oracle model of an IDWriteFontList: GetFontCount plus the fallible
per-index GetFont call. -/
structure FontList where
  count : Nat
  getFont : Nat → Except NativeError Font

/-- The five DWRITE_FONT_AXIS_TAG constants used in lib.rs lines 362-397. -/
inductive AxisTag
  | weight
  | width
  | slant
  | opticalSize
  | italic
deriving DecidableEq

/-- A DWRITE_FONT_AXIS_VALUE pair: axis tag plus value. -/
structure AxisValue where
  axisTag : AxisTag
  value : ℚ
deriving DecidableEq

/-- Oracle model of the IDWriteFontFamily2 interface (the modern axis-matching
capability, Windows 10 Build 20348). -/
structure IDWriteFontFamily2 where
  getMatchingFonts2 : List AxisValue → Except NativeError FontList

/-- Oracle model of an IDWriteFontFamily handle: its localized name table, the
count and per-index font access, the legacy GetMatchingFonts query
(weight, stretch, style codes), and the capability cast to IDWriteFontFamily2
(none models a failing cast, on OS tiers lacking the modern API). -/
structure IDWriteFontFamily where
  getFamilyNames : Except NativeError IDWriteLocalizedStrings
  getFontCount : Nat
  getFont : Nat → Except NativeError Font
  getMatchingFonts : Int → Int → Int → Except NativeError FontList
  cast2 : Option IDWriteFontFamily2

/-- Modelled from the spec: the repository's enums module (src/enums.rs,
declared by lib.rs line 69) is not under src/.  The spec's Glossary defines
Style as the named slant categories Normal, Oblique, Italic, carried as the
DirectWrite DWRITE_FONT_STYLE numeric codes 0, 1, 2. -/
inductive Style
  | NORMAL
  | OBLIQUE
  | ITALIC
deriving DecidableEq

/-- The numeric DWRITE_FONT_STYLE code of a Style (the Rust as-i32 cast of the
enum at lib.rs line 322). -/
def Style.code : Style → Int
  | .NORMAL => 0
  | .OBLIQUE => 1
  | .ITALIC => 2

/-- The DWRITE_FONT_STRETCH_NORMAL constant (the fixed stretch of the legacy
matching path, lib.rs line 321). -/
def DWRITE_FONT_STRETCH_NORMAL : Int := 5

/-- The Rust expression (q as i32) on an f32 value modelled as a rational:
truncation toward zero, saturating at the i32 bounds. -/
def f32toi32 (q : ℚ) : Int :=
  let t := Int.tdiv q.num (q.den : Int)
  if t < -(2 ^ 31) then -(2 ^ 31)
  else if (2 ^ 31 - 1) < t then (2 ^ 31 - 1)
  else t

/-- A FontVariant value: the wrapped font face plus the strong reference to
its parent family (lib.rs lines 565-571). -/
structure FontVariant where
  font : Font
  family : IDWriteFontFamily

/-- The native matching calls the variant-matching protocol can perform,
recorded as a trace. -/
inductive NativeCall
  | getMatchingFonts (weight stretch style : Int)
  | castFamily2
  | getMatchingFonts2 (conditions : List AxisValue)
deriving DecidableEq

/-- The lazy item sequence built over a matched font list (lib.rs lines
330-339 and 406-415): each index yields GetFont's result, native failures
routed through WindowsFontError. -/
def mkItems (fam : IDWriteFontFamily) (l : FontList) :
    List (Except PErr FontVariant) :=
  (List.range l.count).map fun n =>
    match l.getFont n with
    | .error e => .error (nativePy e)
    | .ok f => .ok ⟨f, fam⟩

/-- Translation of FontFamily::_get_dwrite0_matching_variants (lib.rs lines
311-340), the legacy Windows-7 path: query GetMatchingFonts with the weight
(default 400) cast to i32, the fixed normal stretch, and the style (default
NORMAL) code.  Returns the item sequence plus the native-call trace. -/
def _get_dwrite0_matching_variants (fam : IDWriteFontFamily)
    (weight : Option ℚ) (style : Option Style) :
    Except PErr (List (Except PErr FontVariant)) × List NativeCall :=
  let w := f32toi32 (weight.getD 400)
  let st := (style.getD Style.NORMAL).code
  match fam.getMatchingFonts w DWRITE_FONT_STRETCH_NORMAL st with
  | .error e =>
    (.error (nativePy e), [.getMatchingFonts w DWRITE_FONT_STRETCH_NORMAL st])
  | .ok l =>
    (.ok (mkItems fam l), [.getMatchingFonts w DWRITE_FONT_STRETCH_NORMAL st])

/-- Translation of FontFamily::_get_dwrite3_matching_variants (lib.rs lines
343-417), the modern axis path: cast to IDWriteFontFamily2 (failure raises
PyOSError with the Windows-10-build message), build the sparse axis-condition
list in source order (weight, width, slant, optical_size, italic mapped to
1.0 or 0.0), and query GetMatchingFonts2 with exactly that list. -/
def _get_dwrite3_matching_variants (fam : IDWriteFontFamily)
    (weight width slant optical_size : Option ℚ) (italic : Option Bool) :
    Except PErr (List (Except PErr FontVariant)) × List NativeCall :=
  match fam.cast2 with
  | none =>
    (.error ⟨.osError, "Use of this function requires Windows 10 Build 20348 or above"⟩,
      [.castFamily2])
  | some f2 =>
    let conditions : List AxisValue :=
      (match weight with | some v => [⟨.weight, v⟩] | none => [])
      ++ (match width with | some v => [⟨.width, v⟩] | none => [])
      ++ (match slant with | some v => [⟨.slant, v⟩] | none => [])
      ++ (match optical_size with | some v => [⟨.opticalSize, v⟩] | none => [])
      ++ (match italic with
          | some v => [⟨.italic, if v then 1 else 0⟩]
          | none => [])
    match f2.getMatchingFonts2 conditions with
    | .error e =>
      (.error (nativePy e), [.castFamily2, .getMatchingFonts2 conditions])
    | .ok l =>
      (.ok (mkItems fam l), [.castFamily2, .getMatchingFonts2 conditions])

/-- Translation of FontFamily::_get_matcing_variants (lib.rs lines 277-308):
when style is supplied, reject any axis parameter (PyValueError, before any
native call), else take the legacy path; when style is absent, take the
modern path. -/
def _get_matcing_variants (fam : IDWriteFontFamily) (weight : Option ℚ)
    (style : Option Style) (width slant optical_size : Option ℚ)
    (italic : Option Bool) :
    Except PErr (List (Except PErr FontVariant)) × List NativeCall :=
  if style.isSome then
    if width.isSome || slant.isSome || optical_size.isSome || italic.isSome then
      (.error ⟨.valueError, "cannot pass `style` and any of `width`, `slant`, `optical_size`, `italic` at the same time"⟩,
        [])
    else _get_dwrite0_matching_variants fam weight style
  else _get_dwrite3_matching_variants fam weight width slant optical_size italic

/-- Translation of FontFamily::get_best_variant (lib.rs lines 469-494): take
the first item of the matching iterator, or fail with the No-variants-found
error (an anyhow message error, surfaced as PyRuntimeError) when it is
empty. -/
def get_best_variant (fam : IDWriteFontFamily) (weight : Option ℚ)
    (style : Option Style) (width slant optical_size : Option ℚ)
    (italic : Option Bool) : Except PErr FontVariant :=
  match (_get_matcing_variants fam weight style width slant optical_size italic).1 with
  | .error e => .error e
  | .ok items =>
    match items with
    | item :: _ => item
    | [] => .error ⟨.runtimeError, "No variants found"⟩

/-- The eager collection loop of FontFamily::get_matching_variants (lib.rs
lines 537-539): push each item, propagating the first item error. -/
def collectItems : List (Except PErr FontVariant) → Except PErr (List FontVariant)
  | [] => .ok []
  | x :: rest =>
    match x with
    | .error e => .error e
    | .ok v =>
      match collectItems rest with
      | .error e => .error e
      | .ok vs => .ok (v :: vs)

/-- Translation of FontFamily::get_matching_variants (lib.rs lines 510-541):
materialize the full matching iterator in order. -/
def get_matching_variants (fam : IDWriteFontFamily) (weight : Option ℚ)
    (style : Option Style) (width slant optical_size : Option ℚ)
    (italic : Option Bool) : Except PErr (List FontVariant) :=
  match (_get_matcing_variants fam weight style width slant optical_size italic).1 with
  | .error e => .error e
  | .ok items => collectItems items

/-- Translation of FontFamily::_get_best_name (lib.rs lines 272-275):
GetFamilyNames then best-locale resolution. -/
def IDWriteFontFamily._get_best_name (fam : IDWriteFontFamily)
    (userLocale : String) : Except NativeError String :=
  match fam.getFamilyNames with
  | .error e => .error e
  | .ok names => names.get_best_name userLocale

/-- Translation of the PartialEq impl for FontFamily (lib.rs lines 544-563):
compare resolved names; a resolution failure on either side yields false. -/
def familyEq (userLocale : String) (a b : IDWriteFontFamily) : Bool :=
  match a._get_best_name userLocale with
  | .error _ => false
  | .ok n =>
    match b._get_best_name userLocale with
    | .error _ => false
    | .ok m => n == m

/-- Translation of the PartialEq impl for FontVariant (lib.rs lines 638-653):
unequal when the weights differ or the styles coincide, else compare the
parent families by FontFamily equality. -/
def variantEq (userLocale : String) (v w : FontVariant) : Bool :=
  if v.font.weight != w.font.weight || v.font.style == w.font.style then false
  else familyEq userLocale v.family w.family

/-- The not-equal comparison of FontVariant::__richcmp__ (lib.rs lines
629-635): the Rust PartialEq default, the negation of eq. -/
def variantNe (userLocale : String) (v w : FontVariant) : Bool :=
  !(variantEq userLocale v w)

/-- Translation of FontVariant::files (lib.rs lines 617-620): the outcome of
the native file-resolution pipeline of this font. -/
def FontVariant.files (v : FontVariant) : Except PErr (List String) :=
  v.font.getFiles

/-- Translation of the FontVariant::filename getter (lib.rs lines 605-615):
files()[0] when files() has exactly one element, else a PyRuntimeError. -/
def FontVariant.filename (v : FontVariant) : Except PErr String :=
  match v.files with
  | .error e => .error e
  | .ok names =>
    if names.length != 1 then
      .error ⟨.runtimeError, "FontVariant had more than one name, please use .files()"⟩
    else .ok names.headI

/-- Oracle model of an IDWriteFontCollection1 handle: family count, the
fallible FindFamilyName call returning the exists flag and index, and the
fallible per-index GetFontFamily call. -/
structure IDWriteFontCollection1 where
  getFontFamilyCount : Nat
  findFamilyName : String → Except NativeError (Bool × Nat)
  getFontFamily : Nat → Except NativeError IDWriteFontFamily

/-- The key of FontCollection::__getitem__: a family name or an integer. -/
inductive IntOrStr
  | str (s : String)
  | int (i : Int)

/-- The Rust cast (idx as u32) from isize: the low 32 bits in two's
complement, i.e. the nonnegative representative of idx modulo 2 to the 32. -/
def u32cast (i : Int) : Nat := (i % 4294967296).toNat

/-- The shared tail of FontCollection::__getitem__ (lib.rs lines 200-210):
the range check against GetFontFamilyCount, then the fallible GetFontFamily
call, native failures routed through WindowsFontError. -/
def getFamilyAt (c : IDWriteFontCollection1) (index : Nat) :
    Except PErr IDWriteFontFamily :=
  if c.getFontFamilyCount ≤ index then
    .error ⟨.indexError, "list index out of range"⟩
  else
    match c.getFontFamily index with
    | .error e => .error (nativePy e)
    | .ok fam => .ok fam

/-- Translation of FontCollection::__getitem__ (lib.rs lines 180-211): a name
key goes through FindFamilyName (native failure propagates; a not-found
report raises PyKeyError), an integer key is cast to u32; the resolved index
then goes through the range check and GetFontFamily.  The Debug formatting of
the name inside the KeyError message is elided. -/
def FontCollection_getitem (c : IDWriteFontCollection1) (key : IntOrStr) :
    Except PErr IDWriteFontFamily :=
  match key with
  | .str s =>
    match c.findFamilyName s with
    | .error e => .error (nativePy e)
    | .ok (found, i) =>
      if !found then .error ⟨.keyError, "unknown font family " ++ s⟩
      else getFamilyAt c i
  | .int i => getFamilyAt c (u32cast i)

/-
Concrete fixtures used by counterexamples and witnesses.
-/

/-- A localized-strings table in which nothing is found and fetching fails. -/
def emptyStrings : IDWriteLocalizedStrings :=
  ⟨fun _ => .ok none, fun _ => .error ⟨"no strings"⟩, fun _ => .error ⟨"no strings"⟩⟩

/-- A sample regular-weight upright face backed by one file. -/
def fontA : Font := ⟨400, 0, .ok ["C:/Windows/Fonts/a.ttf"]⟩

/-- A one-element native font list holding fontA. -/
def listA : FontList := ⟨1, fun _ => .ok fontA⟩

/-- A family on an OS tier without the IDWriteFontFamily2 capability, whose
legacy GetMatchingFonts query succeeds with listA. -/
def famNoCap : IDWriteFontFamily :=
  ⟨.ok emptyStrings, 1, fun _ => .ok fontA, fun _ _ _ => .ok listA, none⟩

/-- A family whose IDWriteFontFamily2 cast succeeds and whose queries on both
paths succeed with listA. -/
def famCap : IDWriteFontFamily :=
  ⟨.ok emptyStrings, 1, fun _ => .ok fontA, fun _ _ _ => .ok listA,
    some ⟨fun _ => .ok listA⟩⟩

/-- A sample variant of famCap. -/
def variantA : FontVariant := ⟨fontA, famCap⟩

/-- A collection holding exactly one family, famCap, and finding no names. -/
def coll0 : IDWriteFontCollection1 :=
  ⟨1, fun _ => .ok (false, 0), fun _ => .ok famCap⟩

/-
Claim theorems.
-/

/-- C1 (counterexample): with every parameter absent, the code does not take
the legacy path: the trace holds only the capability cast (the legacy
GetMatchingFonts query is never issued), and on a family without the modern
capability the call fails with the Windows-10-build error even though the
legacy query would have succeeded. -/
theorem C1_counterexample :
    (_get_matcing_variants famNoCap none none none none none none).2
      = [NativeCall.castFamily2]
    ∧ (_get_matcing_variants famNoCap none none none none none none).1
      = .error ⟨.osError, "Use of this function requires Windows 10 Build 20348 or above"⟩
    ∧ NativeCall.getMatchingFonts (f32toi32 400) DWRITE_FONT_STRETCH_NORMAL Style.NORMAL.code
        ∉ (_get_matcing_variants famNoCap none none none none none none).2
    ∧ famNoCap.getMatchingFonts (f32toi32 400) DWRITE_FONT_STRETCH_NORMAL Style.NORMAL.code
      = .ok listA
    ∧ (_get_matcing_variants famNoCap none (some Style.NORMAL) (some 100) none none none).1
      = .error ⟨.valueError, "cannot pass `style` and any of `width`, `slant`, `optical_size`, `italic` at the same time"⟩ :=
  ⟨rfl, rfl, by decide, rfl, rfl⟩

/-- C1 (amended): the legacy matching path is taken exactly when style is
supplied (and, per the mutual-exclusion rule, no axis parameter is): the call
is then the one legacy helper, and the single native query uses the supplied
weight (default 400) cast to i32, the fixed normal stretch, and the supplied
style's code; when style is absent — even with all axis parameters absent —
the modern path is entered instead, beginning with the capability cast. -/
theorem C1_legacy_dispatch :
    (∀ (fam : IDWriteFontFamily) (weight : Option ℚ) (s : Style),
      _get_matcing_variants fam weight (some s) none none none none
        = _get_dwrite0_matching_variants fam weight (some s)
      ∧ (_get_matcing_variants fam weight (some s) none none none none).2
        = [NativeCall.getMatchingFonts (f32toi32 (weight.getD 400))
            DWRITE_FONT_STRETCH_NORMAL s.code])
    ∧ (∀ (fam : IDWriteFontFamily) (weight width slant optical_size : Option ℚ)
        (italic : Option Bool),
      _get_matcing_variants fam weight none width slant optical_size italic
        = _get_dwrite3_matching_variants fam weight width slant optical_size italic
      ∧ (_get_matcing_variants fam weight none width slant optical_size italic).2.head?
        = some NativeCall.castFamily2) := by
  constructor
  · intro fam weight s
    constructor
    · rfl
    · show (_get_dwrite0_matching_variants fam weight (some s)).2 = _
      unfold _get_dwrite0_matching_variants
      cases h : fam.getMatchingFonts (f32toi32 (weight.getD 400))
          DWRITE_FONT_STRETCH_NORMAL s.code <;> simp [h]
  · intro fam weight width slant optical_size italic
    constructor
    · rfl
    · show (_get_dwrite3_matching_variants fam weight width slant optical_size italic).2.head? = _
      unfold _get_dwrite3_matching_variants
      cases h : fam.cast2 with
      | none => simp [h]
      | some f2 =>
        simp only [h]
        cases h2 : f2.getMatchingFonts2 _ <;> simp [h2]

/-- C2: on a family without the modern axis-matching capability, a call
supplying an axis parameter fails with PyOSError — the very same exception
kind that generic native errors are surfaced with through errors.rs — while
the distinct recoverable kind the error enum reserves for this situation
(Windows10Needed, a PyRuntimeError) is never used. -/
theorem C2_feature_unavailable_kind :
    (_get_matcing_variants famNoCap none none (some 100) none none none).1
      = .error ⟨.osError, "Use of this function requires Windows 10 Build 20348 or above"⟩
    ∧ ∀ (e : NativeError) (m : String),
        (nativePy e).kind = PyErrKind.osError
        ∧ (WindowsFontError.windows10Needed m).toPyErr.kind = PyErrKind.runtimeError :=
  ⟨rfl, fun _ _ => ⟨rfl, rfl⟩⟩

/-- C5: supplying style together with any of width, slant, optical_size or
italic fails with the invalid-argument PyValueError, and the native-call trace
is empty: no native query is made before the failure. -/
theorem C5_mutual_exclusion :
    ∀ (fam : IDWriteFontFamily) (weight : Option ℚ) (s : Style)
      (width slant optical_size : Option ℚ) (italic : Option Bool),
      (width.isSome || slant.isSome || optical_size.isSome || italic.isSome) = true →
      (_get_matcing_variants fam weight (some s) width slant optical_size italic).1
        = .error ⟨.valueError, "cannot pass `style` and any of `width`, `slant`, `optical_size`, `italic` at the same time"⟩
      ∧ (_get_matcing_variants fam weight (some s) width slant optical_size italic).2
        = [] := by
  intro fam weight s width slant optical_size italic h
  unfold _get_matcing_variants
  simp [h]

/-- C5 (witness): the mutual-exclusion failure at a concrete family and
concrete parameters style = NORMAL, width = 100. -/
theorem C5_witness :
    (_get_matcing_variants famNoCap none (some Style.NORMAL) (some 100) none none none).1
      = .error ⟨.valueError, "cannot pass `style` and any of `width`, `slant`, `optical_size`, `italic` at the same time"⟩
    ∧ (_get_matcing_variants famNoCap none (some Style.NORMAL) (some 100) none none none).2
      = [] :=
  C5_mutual_exclusion famNoCap none Style.NORMAL (some 100) none none none rfl

/-- C3: FontVariant equality holds exactly under the literal asymmetric
condition of the source: equal weights, different styles, and parent families
equal by FontFamily equality. -/
theorem C3_variant_eq_iff :
    ∀ (u : String) (v w : FontVariant),
      variantEq u v w = true ↔
        (v.font.weight = w.font.weight ∧ v.font.style ≠ w.font.style
          ∧ familyEq u v.family w.family = true) := by
  intro u v w
  unfold variantEq
  by_cases h1 : v.font.weight = w.font.weight
  · by_cases h2 : v.font.style = w.font.style
    · simp [h1, h2]
    · simp [h1, h2]
  · simp [h1]

/-- An eager collection succeeding with a cons means the item sequence began
with that ok item and the tail collected to the rest. -/
theorem collectItems_ok_cons (items : List (Except PErr FontVariant))
    (v : FontVariant) (rest : List FontVariant)
    (h : collectItems items = .ok (v :: rest)) :
    ∃ tl, items = Except.ok v :: tl ∧ collectItems tl = .ok rest := by
  cases items with
  | nil => simp [collectItems] at h
  | cons x xs =>
    cases x with
    | error e => simp [collectItems] at h
    | ok y =>
      simp only [collectItems] at h
      cases hx : collectItems xs with
      | error e => rw [hx] at h; exact absurd h (by simp)
      | ok vs =>
        rw [hx] at h
        simp only [Except.ok.injEq, List.cons.injEq] at h
        exact ⟨xs, by rw [h.1], by rw [hx, h.2]⟩

/-- An eager collection succeeding with the empty list means the item
sequence itself was empty. -/
theorem collectItems_ok_nil (items : List (Except PErr FontVariant))
    (h : collectItems items = .ok []) : items = [] := by
  cases items with
  | nil => rfl
  | cons x xs =>
    cases x with
    | error e => simp [collectItems] at h
    | ok y =>
      simp only [collectItems] at h
      cases hx : collectItems xs with
      | error e => rw [hx] at h; exact absurd h (by simp)
      | ok vs => rw [hx] at h; simp at h

/-- C4: whenever get_matching_variants succeeds, get_best_variant with the
same parameters returns exactly the first element of the returned sequence,
and fails with the No-variants-found error when that sequence is empty. -/
theorem C4_best_is_first :
    ∀ (fam : IDWriteFontFamily) (weight : Option ℚ) (style : Option Style)
      (width slant optical_size : Option ℚ) (italic : Option Bool)
      (l : List FontVariant),
      get_matching_variants fam weight style width slant optical_size italic = .ok l →
      (∀ v rest, l = v :: rest →
        get_best_variant fam weight style width slant optical_size italic = .ok v)
      ∧ (l = [] →
        get_best_variant fam weight style width slant optical_size italic
          = .error ⟨.runtimeError, "No variants found"⟩) := by
  intro fam weight style width slant optical_size italic l h
  unfold get_matching_variants at h
  unfold get_best_variant
  cases hi : (_get_matcing_variants fam weight style width slant optical_size italic).1 with
  | error e => rw [hi] at h; exact absurd h (by simp)
  | ok items =>
    rw [hi] at h
    constructor
    · intro v rest hl
      subst hl
      obtain ⟨tl, htl, _⟩ := collectItems_ok_cons items v rest h
      rw [htl]
    · intro hl
      subst hl
      rw [collectItems_ok_nil items h]

/-- C4 (witness): on a concrete modern-capable family with a one-font match
list, the eager call returns the singleton and the best-variant call returns
that very element. -/
theorem C4_witness :
    get_best_variant famCap none none none none none none = .ok variantA :=
  (C4_best_is_first famCap none none none none none none [variantA] rfl).1
    variantA [] rfl

/-- C6: best-name resolution selects the preferred locale's index when the
find call reports it present, else the index of the fixed fallback locale
en-us when reported present, else index 0; in every case the result is the
fetch at that index, so a locale not being found never surfaces as an error,
while a failing string-length or string-fetch call propagates its native
error. -/
theorem C6_best_name_selection :
    ∀ (s : IDWriteLocalizedStrings) (user : String),
      (∀ i, s.findLocaleName user = .ok (some i) →
        s.get_best_name user = s.fetchAt i)
      ∧ (∀ j, s.findLocaleName user = .ok none →
          s.findLocaleName "en-us" = .ok (some j) →
          s.get_best_name user = s.fetchAt j)
      ∧ (s.findLocaleName user = .ok none →
          s.findLocaleName "en-us" = .ok none →
          s.get_best_name user = s.fetchAt 0)
      ∧ (∀ i e, s.getStringLength i = .error e → s.fetchAt i = .error e)
      ∧ (∀ i len e, s.getStringLength i = .ok len → s.getString i = .error e →
          s.fetchAt i = .error e) := by
  intro s user
  refine ⟨?_, ?_, ?_, ?_, ?_⟩
  · intro i h
    unfold IDWriteLocalizedStrings.get_best_name IDWriteLocalizedStrings.selectedIndex
    rw [h]
  · intro j h1 h2
    unfold IDWriteLocalizedStrings.get_best_name IDWriteLocalizedStrings.selectedIndex
    rw [h1, h2]
  · intro h1 h2
    unfold IDWriteLocalizedStrings.get_best_name IDWriteLocalizedStrings.selectedIndex
    rw [h1, h2]
  · intro i e h
    unfold IDWriteLocalizedStrings.fetchAt
    rw [h]
  · intro i len e h1 h2
    unfold IDWriteLocalizedStrings.fetchAt
    rw [h1, h2]

/-- A concrete localized-strings table for the C6 witness: en-us sits at
index 1, every fetch succeeds. -/
def stringsEn : IDWriteLocalizedStrings :=
  ⟨fun l => .ok (if l == "en-us" then some 1 else none),
    fun _ => .ok 5,
    fun i => .ok (if i == 1 then "Arial" else "Autre")⟩

/-- C6 (witness): with a preferred locale absent from the table, resolution
falls back to the en-us index and returns its string. -/
theorem C6_witness :
    stringsEn.get_best_name "fr-fr" = stringsEn.fetchAt 1
    ∧ stringsEn.fetchAt 1 = .ok "Arial" :=
  ⟨(C6_best_name_selection stringsEn "fr-fr").2.1 1 rfl rfl, rfl⟩

/-- C7 (counterexample): an integer key of two to the 32 is at least the
count of a one-family collection, yet the lookup succeeds (the Rust as-u32
cast wraps it to index 0) instead of failing with IndexOutOfRange. -/
theorem C7_counterexample :
    FontCollection_getitem coll0 (.int 4294967296) = .ok famCap
    ∧ (coll0.getFontFamilyCount : Int) ≤ 4294967296 :=
  ⟨rfl, by decide⟩

/-- C7 (amended): integer lookup uses the key truncated to its low 32 bits
(the Rust as-u32 cast); it fails with IndexOutOfRange exactly when the
truncated index reaches count().  Name lookup fails with KeyNotFound when the
native lookup reports non-existence, either lookup fails with the
native-error kind (PyOSError) when the underlying native call errors, and an
in-range truncated index or an existing in-range name with a succeeding
native call returns the FontFamily. -/
theorem C7_getitem_spec :
    (∀ (c : IDWriteFontCollection1) (i : Int),
      c.getFontFamilyCount ≤ u32cast i →
      FontCollection_getitem c (.int i)
        = .error ⟨.indexError, "list index out of range"⟩)
    ∧ (∀ (c : IDWriteFontCollection1) (i : Int) fam,
      u32cast i < c.getFontFamilyCount →
      c.getFontFamily (u32cast i) = .ok fam →
      FontCollection_getitem c (.int i) = .ok fam)
    ∧ (∀ (c : IDWriteFontCollection1) (i : Int) e,
      u32cast i < c.getFontFamilyCount →
      c.getFontFamily (u32cast i) = .error e →
      FontCollection_getitem c (.int i) = .error ⟨.osError, e.msg⟩)
    ∧ (∀ (c : IDWriteFontCollection1) (s : String) e,
      c.findFamilyName s = .error e →
      FontCollection_getitem c (.str s) = .error ⟨.osError, e.msg⟩)
    ∧ (∀ (c : IDWriteFontCollection1) (s : String) i,
      c.findFamilyName s = .ok (false, i) →
      FontCollection_getitem c (.str s)
        = .error ⟨.keyError, "unknown font family " ++ s⟩)
    ∧ (∀ (c : IDWriteFontCollection1) (s : String) i fam,
      c.findFamilyName s = .ok (true, i) →
      i < c.getFontFamilyCount →
      c.getFontFamily i = .ok fam →
      FontCollection_getitem c (.str s) = .ok fam) := by
  refine ⟨?_, ?_, ?_, ?_, ?_, ?_⟩
  · intro c i h
    show getFamilyAt c (u32cast i) = _
    unfold getFamilyAt
    rw [if_pos h]
  · intro c i fam h hok
    show getFamilyAt c (u32cast i) = _
    unfold getFamilyAt
    rw [if_neg (by omega), hok]
  · intro c i e h herr
    show getFamilyAt c (u32cast i) = _
    unfold getFamilyAt
    rw [if_neg (by omega), herr]
    rfl
  · intro c s e h
    show (match c.findFamilyName s with
      | Except.error e => Except.error (nativePy e)
      | Except.ok (found, i) =>
        if !found then Except.error ⟨.keyError, "unknown font family " ++ s⟩
        else getFamilyAt c i) = _
    rw [h]
    rfl
  · intro c s i h
    show (match c.findFamilyName s with
      | Except.error e => Except.error (nativePy e)
      | Except.ok (found, i) =>
        if !found then Except.error ⟨.keyError, "unknown font family " ++ s⟩
        else getFamilyAt c i) = _
    rw [h]
    rfl
  · intro c s i fam h hlt hok
    show (match c.findFamilyName s with
      | Except.error e => Except.error (nativePy e)
      | Except.ok (found, i) =>
        if !found then Except.error ⟨.keyError, "unknown font family " ++ s⟩
        else getFamilyAt c i) = _
    rw [h]
    show getFamilyAt c i = .ok fam
    unfold getFamilyAt
    rw [if_neg (by omega), hok]

/-- C7 (witness): index 1 is out of range for the one-family collection and
fails with the IndexError, by the amended bound on the truncated index. -/
theorem C7_witness :
    FontCollection_getitem coll0 (.int 1)
      = .error ⟨.indexError, "list index out of range"⟩ :=
  C7_getitem_spec.1 coll0 1 (by decide)

/-- C8: when the file pipeline succeeds, the filename accessor returns the
single backing file when there is exactly one, and fails with the
ambiguous-result PyRuntimeError when there are zero or several. -/
theorem C8_filename_spec :
    ∀ (v : FontVariant) (l : List String), v.files = .ok l →
      (l.length = 1 → v.filename = .ok l.headI)
      ∧ (l.length ≠ 1 →
        v.filename
          = .error ⟨.runtimeError, "FontVariant had more than one name, please use .files()"⟩) := by
  intro v l h
  unfold FontVariant.filename
  rw [h]
  constructor
  · intro h1
    simp [h1]
  · intro h1
    simp [h1]

/-- C8 (witness): the sample one-file variant's filename is its single
backing file. -/
theorem C8_witness :
    variantA.filename = .ok "C:/Windows/Fonts/a.ttf" :=
  (C8_filename_spec variantA ["C:/Windows/Fonts/a.ttf"] rfl).1 rfl

/-- C9: FontFamily equality returns true exactly when both display names
resolve successfully to the same string; the comparison is a total Boolean,
so a resolution failure on either side yields false and no error escapes. -/
theorem C9_family_eq_iff :
    ∀ (u : String) (a b : IDWriteFontFamily),
      familyEq u a b = true ↔
        ∃ n, a._get_best_name u = .ok n ∧ b._get_best_name u = .ok n := by
  intro u a b
  unfold familyEq
  cases ha : a._get_best_name u with
  | error e => simp
  | ok n =>
    cases hb : b._get_best_name u with
    | error e => simp
    | ok m =>
      simp only [beq_iff_eq, Except.ok.injEq]
      constructor
      · intro h
        exact ⟨n, rfl, h.symm⟩
      · rintro ⟨k, h1, h2⟩
        rw [h1, h2]

/-- C10: FontVariant equality is irreflexive: a variant never equals itself,
nor any variant of the same weight and style, because the equality test
requires the styles to differ; the not-equal comparison correspondingly
returns true. -/
theorem C10_variant_eq_irrefl :
    ∀ (u : String) (v w : FontVariant),
      v.font.weight = w.font.weight → v.font.style = w.font.style →
      variantEq u v w = false ∧ variantNe u v w = true := by
  intro u v w h1 h2
  unfold variantNe variantEq
  simp [h1, h2]

/-- C10 (witness): the sample variant compared with itself is unequal. -/
theorem C10_witness :
    variantEq "en-US" variantA variantA = false
    ∧ variantNe "en-US" variantA variantA = true :=
  C10_variant_eq_irrefl "en-US" variantA variantA rfl rfl

end WindowsFonts
